import Mathlib

/-!
Verification of the colt-lang-v2 front-end core against its specification.

This file gives a shallow embedding of the parts of the source the claims
concern:

* the structural type system (src/src/type/colt_type.cpp, Type::is_equal and
  Type::is_equal_with_const);
* expression structural equality (colt_expr.cpp, operator== on Expr) and the
  expression node classes (src/src/ast/colt_expr.h);
* the AST builder's diagnostic counters (colt_ast.h, ASTMaker::generate_any
  and ASTMaker::generate_any_current) and the CreateAST result contract;
* the operator precedence table GetOpPrecedence.

Machine integers are modelled as Nat with explicit bounds where overflow
matters (u16 error counter, u64 local-slot ids).  Code paths that are
undefined behaviour in the source (out-of-bounds indexing, casts of a base
object to the wrong derived class, falling into a colt_unreachable branch)
are modelled by Option: a result of none means the C++ execution does not
return normally.
-/

/-- Scalar kinds of built-in types (BuiltInID in colt_type.h; the ids are the
ones named by the factory functions CreateU8 .. CreateBool in
src/src/type/colt_type.cpp). -/
inductive BuiltInID where
  | u8 | u16 | u32 | u64 | u128
  | i8 | i16 | i32 | i64 | i128
  | f32 | f64
  | bool
deriving DecidableEq, Repr

/-- Binary operators of the language (colt_operators.h is not under src/; only
the identity of an operator value matters for the claims, so a representative
enumeration is used). -/
inductive BinaryOperator where
  | add | sub | mul | div | mod
  | bitAnd | bitOr | bitXor
  | less | lessEq | great | greatEq | equal | notEqual
deriving DecidableEq, Repr

/-- Unary operators of the language (colt_operators.h is not under src/; only
the identity of an operator value matters for the claims). -/
inductive UnaryOperator where
  | negate | not | preIncrement | postIncrement | preDecrement | postDecrement
deriving DecidableEq, Repr

/-- Constructed types of colt::lang (class Type and its derived classes
VoidType, BuiltInType, PtrType, FnType, ErrorType).  The TypeID enum also
declares TYPE_ARRAY and TYPE_CLASS, but no class nor factory for those
variants exists in the source, so no value of this model carries them:
they are exactly the unreachable placeholders of the default switch branch
of Type::is_equal (colt_type.cpp:165-168). -/
inductive Ty where
  /-- VoidType -/
  | void
  /-- BuiltInType: scalar id, const-flag, supported binary operators -/
  | builtin (id : BuiltInID) (isConst : Bool) (validOp : List BinaryOperator)
  /-- PtrType: const-flag and pointee type -/
  | ptr (isConst : Bool) (typeTo : Ty)
  /-- FnType: return type and ordered parameter types -/
  | fn (ret : Ty) (params : List Ty)
  /-- ErrorType: sentinel for recovered failures -/
  | error
deriving Repr

/-- Discriminant test used by the guard of Type::is_equal
(this->is_error(), i.e. classof() == TYPE_ERROR). -/
def Ty.is_error : Ty → Bool
  | .error => true
  | _ => false

/-- Top-level const-flag of a type.  The header colt_type.h is not under
src/; from the factory functions in colt_type.cpp, BuiltInType and PtrType
take an is_const flag while VoidType, FnType and ErrorType take none, so the
latter are modelled as non-const. -/
def Ty.is_const : Ty → Bool
  | .builtin _ c _ => c
  | .ptr c _ => c
  | _ => false

mutual

/-- Shallow embedding of Type::is_equal (colt_type.cpp:131-170).
self is the receiver (the variable b in the source), other the argument
(the variable a).  The source switches on this->classof() and casts the
argument to the receiver's class without checking the argument's tag:
when the argument has a different variant, the cast reads fields that do
not exist, modelled as none.  In the TYPE_FN case the source checks
(!ret_equal && size_mismatch), and its loop runs over the argument's
parameter list while indexing the receiver's; the out-of-bounds access is
modelled as none. -/
def Ty.is_equal (self other : Ty) : Option Bool :=
  if self.is_error || other.is_error then some true
  else
    match self with
    | .void => some true
    | .builtin idb _ _ =>
      match other with
      | .builtin ida _ _ => some (ida == idb)
      | _ => none
    | .ptr _ pb =>
      match other with
      | .ptr _ pa => Ty.is_equal_with_const pa pb
      | _ => none
    | .fn retb paramsb =>
      match other with
      | .fn reta paramsa =>
        match Ty.is_equal reta retb with
        | none => none
        | some r =>
          if !r && paramsa.length != paramsb.length then some false
          else Ty.paramsLoop paramsa paramsb
      | _ => none
    | .error => some true
termination_by (sizeOf self + sizeOf other, 1)

/-- Shallow embedding of Type::is_equal_with_const (colt_type.cpp:172-177):
compares the top-level const flags, then falls back to is_equal. -/
def Ty.is_equal_with_const (self other : Ty) : Option Bool :=
  if self.is_const != other.is_const then some false
  else Ty.is_equal self other
termination_by (sizeOf self + sizeOf other, 2)

/-- The parameter loop of the TYPE_FN case of Type::is_equal
(colt_type.cpp:158-162): for i below the argument's parameter count,
compare a.params[i].is_equal(b.params[i]); indexing b.params past its
length is out of bounds, modelled as none. -/
def Ty.paramsLoop (a b : List Ty) : Option Bool :=
  match a, b with
  | [], _ => some true
  | _ :: _, [] => none
  | x :: xs, y :: ys =>
    match Ty.is_equal x y with
    | none => none
    | some r => if r then Ty.paramsLoop xs ys else some false
termination_by (sizeOf a + sizeOf b, 0)

end

/-!
Expression nodes.  The source represents expressions as a class hierarchy
(src/src/ast/colt_expr.h) whose nodes reference children through non-owning
PTR handles into the COLTContext arena.  A handle is modelled as a Nat;
handle comparison in the source is raw pointer comparison, so it is plain
Nat equality here and never consults the node a handle designates.
Children documented as possibly null (VariableDeclExpr's initializer,
FnReturnExpr's value, ConditionExpr's else branch) are Option Nat, none
standing for nullptr.
-/

/-- Expression nodes (class Expr and its derived classes, colt_expr.h).
The enum ExprID also declares EXPR_BASE (abstract, never constructed) and
EXPR_FN_CALL (no FnCallExpr class exists in the header), so neither carries
data here; fnCall keeps the tag for the unreachable default branch. -/
inductive Expr where
  /-- LiteralExpr: raw 64-bit value (QWORD) -/
  | literal (value : Nat)
  /-- UnaryExpr: operator and operand handle -/
  | unary (operation : UnaryOperator) (child : Nat)
  /-- BinaryExpr: left handle, operator, right handle -/
  | binary (lhs : Nat) (operation : BinaryOperator) (rhs : Nat)
  /-- ConvertExpr: operand handle -/
  | convert (toConvert : Nat)
  /-- VariableDeclExpr: global-flag, optional initializer handle, name -/
  | varDecl (isGlobal : Bool) (initValue : Option Nat) (name : String)
  /-- VariableReadExpr: local-slot id (u64) and name -/
  | varRead (localID : Nat) (name : String)
  /-- VariableWriteExpr: local-slot id (u64), value handle, name -/
  | varWrite (localID : Nat) (value : Nat) (name : String)
  /-- FnDefExpr: body handle, parameter names, return-statement handles, name -/
  | fnDef (body : Option Nat) (argumentsName : List String) (returnList : List Nat) (name : String)
  /-- FnCallExpr tag (class not present in the header) -/
  | fnCall
  /-- FnReturnExpr: optional returned value handle -/
  | fnReturn (toRet : Option Nat)
  /-- ScopeExpr: ordered statement handles -/
  | scope (bodyExpr : List Nat)
  /-- ConditionExpr: condition, then branch, optional else branch -/
  | condition (ifCond : Nat) (ifStmt : Nat) (elseStmt : Option Nat)
deriving DecidableEq, Repr

/-- Shallow embedding of operator==(const Expr&, const Expr&)
(colt_expr.cpp, lines 6-91).  The source first compares the classof tags
and returns false when they differ (the catch-all branch here); with equal
tags it switches on the variant.  The EXPR_LITERAL case returns false, its
value comparison being commented out (TODO).  Child handles are compared as
raw pointers, Nat equality here.  The EXPR_SCOPE case is an empty compound
statement that falls through into the EXPR_FN_CALL/default branch, which
calls colt_unreachable and never returns: modelled as none. -/
def exprEq (lhs rhs : Expr) : Option Bool :=
  match lhs, rhs with
  | .literal _, .literal _ => some false
  | .unary op c, .unary op' c' =>
    some (op == op' && c == c')
  | .binary l op r, .binary l' op' r' =>
    some (op == op' && l == l' && r == r')
  | .convert c, .convert c' =>
    some (c == c')
  | .varDecl g i n, .varDecl g' i' n' =>
    some (n == n' && g == g' && i == i')
  | .varRead id n, .varRead id' n' =>
    some (n == n' && id == id')
  | .varWrite id v n, .varWrite id' v' n' =>
    some (n == n' && id == id' && v == v')
  | .fnDef _ _ _ _, .fnDef _ _ _ _ => some false
  | .condition c t e, .condition c' t' e' =>
    some (c == c' && t == t' && e == e')
  | .fnReturn v, .fnReturn v' =>
    some (v == v')
  | .scope _, .scope _ => none
  | .fnCall, .fnCall => none
  | _, _ => some false

/-!
VariableReadExpr and VariableWriteExpr as classes (colt_expr.h:248-352):
the local-slot id is a u64 whose maximum value is the sentinel meaning the
variable is global.  The name-only constructor stores the sentinel; the
constructor taking an explicit id asserts !is_global().
-/

/-- Maximum representable u64 value, the global sentinel
(std::numeric_limits of u64, colt_expr.h:271). -/
def u64Max : Nat := 2 ^ 64 - 1

/-- State of a VariableReadExpr node (colt_expr.h:249-295). -/
structure VariableReadExpr where
  local_ID : Nat
  name : String
deriving DecidableEq, Repr

/-- Name-only constructor of VariableReadExpr (colt_expr.h:270-271):
stores the global sentinel as local id. -/
def VariableReadExpr.mkGlobal (name : String) : VariableReadExpr :=
  { local_ID := u64Max, name := name }

/-- Constructor of VariableReadExpr taking an explicit local id
(colt_expr.h:276-277); the source asserts !is_global() on the result. -/
def VariableReadExpr.mkLocal (name : String) (local_ID : Nat) : VariableReadExpr :=
  { local_ID := local_ID, name := name }

/-- VariableReadExpr::is_global (colt_expr.h:285). -/
def VariableReadExpr.is_global (e : VariableReadExpr) : Bool :=
  e.local_ID == u64Max

/-- State of a VariableWriteExpr node (colt_expr.h:298-352); the written
value handle is irrelevant to the global/local discrimination. -/
structure VariableWriteExpr where
  local_ID : Nat
  value : Nat
  name : String
deriving DecidableEq, Repr

/-- Name-and-value constructor of VariableWriteExpr (colt_expr.h:322-323):
stores the global sentinel as local id. -/
def VariableWriteExpr.mkGlobal (name : String) (value : Nat) : VariableWriteExpr :=
  { local_ID := u64Max, value := value, name := name }

/-- Constructor of VariableWriteExpr taking an explicit local id
(colt_expr.h:329-330); the source asserts !is_global() on the result. -/
def VariableWriteExpr.mkLocal (name : String) (value : Nat) (local_ID : Nat) : VariableWriteExpr :=
  { local_ID := local_ID, value := value, name := name }

/-- VariableWriteExpr::is_global (colt_expr.h:342). -/
def VariableWriteExpr.is_global (e : VariableWriteExpr) : Bool :=
  e.local_ID == u64Max

/-!
Diagnostic counters of the AST builder (class ASTMaker, colt_ast.h).
The builder carries a u16 error_count and a u16 warn_count; generate_any
and generate_any_current (colt_ast.h:351-390) print through
GenerateError / GenerateWarning / GenerateMessage and then run the panic
consumer; only the ERROR instantiation touches a counter, incrementing
error_count.  Printing and token consumption do not affect the counters and
are elided from the state.
-/

/-- Severity channel (enum class report_as, colt_ast.h:156-159). -/
inductive ReportAs where
  | ERROR | WARNING | MESSAGE
deriving DecidableEq, Repr

/-- Counter-and-result state of an ASTMaker (colt_ast.h:49-54): the parsed
top-level expression handles, and the u16 diagnostic counters kept as Nat
values below 2 ^ 16. -/
structure ASTMakerState where
  expressions : List Nat
  error_count : Nat
  warn_count : Nat
deriving DecidableEq, Repr

/-- Effect of ASTMaker::generate_any (colt_ast.h:351-368) on the builder
state: the ERROR instantiation increments error_count (u16 increment,
modelled mod 2 ^ 16); WARNING and MESSAGE leave both counters unchanged. -/
def ASTMaker.generate_any (sev : ReportAs) (s : ASTMakerState) : ASTMakerState :=
  match sev with
  | .ERROR => { s with error_count := (s.error_count + 1) % 2 ^ 16 }
  | .WARNING => s
  | .MESSAGE => s

/-- Effect of ASTMaker::generate_any_current (colt_ast.h:370-390) on the
builder state: identical counter behaviour to generate_any, the two
differing only in how the source location is obtained. -/
def ASTMaker.generate_any_current (sev : ReportAs) (s : ASTMakerState) : ASTMakerState :=
  match sev with
  | .ERROR => { s with error_count := (s.error_count + 1) % 2 ^ 16 }
  | .WARNING => s
  | .MESSAGE => s

/-- An abstract syntax tree (struct AST, colt_ast.h:392-405): the ordered
top-level expression handles; the owning COLTContext is elided. -/
structure AST where
  expressions : List Nat
deriving DecidableEq, Repr

/-- Modelled from the spec: the body of CreateAST (colt_ast.cpp) is not
under src/, only its declaration (colt_ast.h:407-411).  Per that
declaration's doc ("Error count if errors where detected else the AST") and
spec sections 4.3 and 7, CreateAST runs an ASTMaker over the input and, from
the builder's final state, returns the AST when the error count is zero and
the accumulated error count otherwise; the warning count plays no role. -/
def CreateAST (s : ASTMakerState) : Except Nat AST :=
  if s.error_count > 0 then .error s.error_count
  else .ok { expressions := s.expressions }

/-!
Token stream and operator precedence.  The lexer header is not under src/;
the token enumeration below is modelled from the TKN_ names the sources use
(colt_ast.h) together with the operators the spec names.
-/

/-- Modelled from the spec: lexer tokens (enum Token, colt_lexer.h not under
src/).  Constructors cover the tokens the sources name (TKN_ERROR, TKN_EOF,
TKN_SEMICOLON, TKN_COLON, TKN_COMMA, parentheses, curly brackets, the
increment and decrement operators) and the operator and literal tokens the
spec describes. -/
inductive Token where
  | plus | minus | star | slash | percent
  | plusPlus | minusMinus
  | less | lessEqual | great | greatEqual
  | equalEqual | bangEqual
  | ampersand | pipe | caret
  | assign | plusAssign | minusAssign
  | leftParen | rightParen | leftCurly | rightCurly
  | comma | semicolon | colon
  | identifier | integerLiteral | floatLiteral | keyword
  | eof | error
deriving DecidableEq, Repr

/-- Tokens that act as binary operators for the Pratt climb (spec section
4.3: the climb consumes binary operators; delimiters and other tokens are
not operators). -/
def Token.isBinaryOperatorToken : Token → Bool
  | .plus | .minus | .star | .slash | .percent
  | .less | .lessEqual | .great | .greatEqual
  | .equalEqual | .bangEqual
  | .ampersand | .pipe | .caret => true
  | _ => false

/-- Modelled from the spec: GetOpPrecedence (declared colt_ast.h:15-20, its
definition in colt_ast.cpp is not under src/).  Per the declaration's doc it
returns the precedence of an operator, or 255 if the token is not an
operator, and in particular returns a valid precedence for ')' ',' ';' and
TKN_ERROR so that Pratt parsing terminates on them.  Multiplicative
operators bind tighter than additive ones (spec section 8); every token of
the enumeration is given a value, with no default case, so the function is
total by construction. -/
def GetOpPrecedence : Token → Nat
  | .star | .slash | .percent => 11
  | .plus | .minus => 10
  | .less | .lessEqual | .great | .greatEqual => 9
  | .equalEqual | .bangEqual => 8
  | .ampersand => 7
  | .caret => 6
  | .pipe => 5
  | .plusPlus => 255
  | .minusMinus => 255
  | .assign => 255
  | .plusAssign => 255
  | .minusAssign => 255
  | .leftParen => 255
  | .rightParen => 255
  | .leftCurly => 255
  | .rightCurly => 255
  | .comma => 255
  | .semicolon => 255
  | .colon => 255
  | .identifier => 255
  | .integerLiteral => 255
  | .floatLiteral => 255
  | .keyword => 255
  | .eof => 255
  | .error => 255


mutual

theorem Ty.is_equal_refl (a : Ty) : Ty.is_equal a a = some true := by
  match a with
  | .error => simp [Ty.is_equal, Ty.is_error]
  | .void => simp [Ty.is_equal, Ty.is_error]
  | .builtin id c ops => simp [Ty.is_equal, Ty.is_error]
  | .ptr c p =>
    have ih := Ty.is_equal_refl p
    simp [Ty.is_equal, Ty.is_error, Ty.is_equal_with_const, ih]
  | .fn ret params =>
    have ih := Ty.is_equal_refl ret
    have ihl := Ty.paramsLoop_refl params
    simp [Ty.is_equal, Ty.is_error, ih, ihl]
termination_by (sizeOf a, 1)

theorem Ty.paramsLoop_refl (l : List Ty) : Ty.paramsLoop l l = some true := by
  match l with
  | [] => simp [Ty.paramsLoop]
  | x :: xs =>
    have ih := Ty.is_equal_refl x
    have ihl := Ty.paramsLoop_refl xs
    simp [Ty.paramsLoop, ih, ihl]
termination_by (sizeOf l, 0)

end

mutual

theorem Ty.is_equal_defined_agree (a b : Ty) (x y : Bool)
    (h1 : Ty.is_equal a b = some x) (h2 : Ty.is_equal b a = some y) : x = y := by
  match a, b with
  | .error, .error | .error, .void | .error, .builtin _ _ _ | .error, .ptr _ _ | .error, .fn _ _
  | .void, .error | .builtin _ _ _, .error | .ptr _ _, .error | .fn _ _, .error =>
    simp [Ty.is_equal, Ty.is_error] at h1 h2
    simp_all
  | .void, .void =>
    simp [Ty.is_equal, Ty.is_error] at h1 h2
    simp_all
  | .void, .builtin _ _ _ | .void, .ptr _ _ | .void, .fn _ _ =>
    simp [Ty.is_equal, Ty.is_error] at h2
  | .builtin _ _ _, .void | .ptr _ _, .void | .fn _ _, .void =>
    simp [Ty.is_equal, Ty.is_error] at h1
  | .builtin _ _ _, .ptr _ _ | .builtin _ _ _, .fn _ _ | .ptr _ _, .fn _ _ =>
    simp [Ty.is_equal, Ty.is_error] at h1
  | .ptr _ _, .builtin _ _ _ | .fn _ _, .builtin _ _ _ | .fn _ _, .ptr _ _ =>
    simp [Ty.is_equal, Ty.is_error] at h2
  | .builtin ida ca la, .builtin idb cb lb =>
    simp [Ty.is_equal, Ty.is_error] at h1 h2
    subst h1; subst h2
    rcases eq_or_ne ida idb with h | h
    · subst h; rfl
    · simp [beq_eq_false_iff_ne, h, Ne.symm h]
  | .ptr ca pa, .ptr cb pb =>
    simp [Ty.is_equal, Ty.is_error, Ty.is_equal_with_const] at h1 h2
    by_cases hc : pb.is_const = pa.is_const
    · rw [if_pos hc] at h1
      rw [if_pos hc.symm] at h2
      exact Ty.is_equal_defined_agree pb pa x y h1 h2
    · rw [if_neg hc] at h1
      rw [if_neg (fun h => hc h.symm)] at h2
      simp only [Option.some.injEq] at h1 h2
      subst h1; subst h2; rfl
  | .fn reta paramsa, .fn retb paramsb =>
    simp [Ty.is_equal, Ty.is_error] at h1 h2
    rcases hr1 : Ty.is_equal retb reta with _ | r1
    · rw [hr1] at h1; simp at h1
    rcases hr2 : Ty.is_equal reta retb with _ | r2
    · rw [hr2] at h2; simp at h2
    rw [hr1] at h1
    rw [hr2] at h2
    simp only [] at h1 h2
    have hr : r1 = r2 := Ty.is_equal_defined_agree retb reta r1 r2 hr1 hr2
    subst hr
    cases r1 with
    | true =>
      rw [if_neg (by simp)] at h1
      rw [if_neg (by simp)] at h2
      exact Ty.paramsLoop_defined_agree paramsb paramsa x y h1 h2
    | false =>
      by_cases hL : paramsb.length = paramsa.length
      · rw [if_neg (by simp [hL])] at h1
        rw [if_neg (by simp [hL])] at h2
        exact Ty.paramsLoop_defined_agree paramsb paramsa x y h1 h2
      · rw [if_pos ⟨rfl, hL⟩] at h1
        rw [if_pos ⟨rfl, fun h => hL h.symm⟩] at h2
        simp only [Option.some.injEq] at h1 h2
        subst h1; subst h2; rfl
termination_by (sizeOf a + sizeOf b, 1)

theorem Ty.paramsLoop_defined_agree (l m : List Ty) (x y : Bool)
    (h1 : Ty.paramsLoop l m = some x) (h2 : Ty.paramsLoop m l = some y) : x = y := by
  match l, m with
  | [], [] =>
    simp [Ty.paramsLoop] at h1 h2
    subst h1; subst h2; rfl
  | [], _ :: _ =>
    simp [Ty.paramsLoop] at h2
  | _ :: _, [] =>
    simp [Ty.paramsLoop] at h1
  | a :: as, b :: bs =>
    simp [Ty.paramsLoop] at h1 h2
    rcases hr1 : Ty.is_equal a b with _ | r1
    · rw [hr1] at h1; simp at h1
    rcases hr2 : Ty.is_equal b a with _ | r2
    · rw [hr2] at h2; simp at h2
    rw [hr1] at h1
    rw [hr2] at h2
    simp only [] at h1 h2
    have hr : r1 = r2 := Ty.is_equal_defined_agree a b r1 r2 hr1 hr2
    subst hr
    cases r1 with
    | true =>
      rw [if_pos rfl] at h1
      rw [if_pos rfl] at h2
      exact Ty.paramsLoop_defined_agree as bs x y h1 h2
    | false =>
      rw [if_neg (by simp)] at h1
      rw [if_neg (by simp)] at h2
      simp only [Option.some.injEq] at h1 h2
      subst h1; subst h2; rfl
termination_by (sizeOf l + sizeOf m, 0)

end

/-!
Claim theorems.
-/

/-- C1: the claim states that for function types (neither operand the Error
sentinel) Type::is_equal returns true iff the return types are equal and the
parameter lists are equal element-wise, and in particular that equal returns
with different parameter-list lengths compare unequal.  The code refutes it:
the rejection test at colt_type.cpp:155-156 uses a conjunction, so a pair
with equal return types and different parameter counts is never rejected
early; the loop then runs over the argument's (shorter) list and returns
true, and with equal parameter counts the return types are ignored
altogether.  The reversed comparison of the first pair reads the parameter
array out of bounds (none). -/
theorem C1_fn_equality_bug_eval :
    Ty.is_equal (.fn .void [.void]) (.fn .void []) = some true ∧
    Ty.is_equal (.fn (.builtin .i8 false []) []) (.fn (.builtin .u8 false []) []) = some true ∧
    Ty.is_equal (.fn .void []) (.fn .void [.void]) = none := by
  refine ⟨?_, ?_, ?_⟩ <;> simp [Ty.is_equal, Ty.paramsLoop, Ty.is_error]

/-- C2 counterexample: symmetry of Type::is_equal fails as stated.  A Void
receiver returns true against any non-error argument without looking at the
argument's variant (colt_type.cpp:137-138), but the opposite order casts the
Void argument to the receiver's class and does not return normally. -/
theorem C2_symmetry_counterexample :
    Ty.is_equal Ty.void (.builtin .u8 false []) = some true ∧
    Ty.is_equal (.builtin .u8 false []) Ty.void = none ∧
    Ty.is_equal Ty.void (.builtin .u8 false []) ≠ Ty.is_equal (.builtin .u8 false []) Ty.void := by
  refine ⟨?_, ?_, ?_⟩ <;> simp [Ty.is_equal, Ty.is_error]

/-- C2 amended: Type::is_equal is reflexive on every constructed type of the
five variants (in particular Void is equal to Void), and the comparisons in
the two orders agree whenever both return normally; agreement in general
fails only because one order may not return (out-of-bounds parameter read or
wrong-class cast), as the counterexample shows. -/
theorem C2_amended_refl_and_agreement :
    (∀ a : Ty, Ty.is_equal a a = some true) ∧
    (∀ (a b : Ty) (x y : Bool),
      Ty.is_equal a b = some x → Ty.is_equal b a = some y → x = y) ∧
    Ty.is_equal .void .void = some true :=
  ⟨Ty.is_equal_refl,
   fun a b x y h1 h2 => Ty.is_equal_defined_agree a b x y h1 h2,
   Ty.is_equal_refl .void⟩

/-- Witness for C2: the agreement part applied at a concrete pair. -/
theorem C2_amended_witness : (true : Bool) = true :=
  C2_amended_refl_and_agreement.2.1 Ty.void Ty.void true true
    (by simp [Ty.is_equal, Ty.is_error]) (by simp [Ty.is_equal, Ty.is_error])

/-- C3: Type::is_equal with either operand being the Error sentinel returns
true, for every constructed type of the five variants, in both orders
(the guard at colt_type.cpp:133-134). -/
theorem C3_error_sentinel_always_equal :
    ∀ t : Ty, Ty.is_equal Ty.error t = some true ∧ Ty.is_equal t Ty.error = some true := by
  intro t
  constructor
  · cases t <;> simp [Ty.is_equal, Ty.is_error]
  · cases t <;> simp [Ty.is_equal, Ty.is_error]

/-- C4: the claim states that two Literal expressions carrying equal raw
64-bit values compare equal under operator==.  The code refutes it: the
EXPR_LITERAL case returns false with the value comparison commented out
(colt_expr.cpp:14-19), contradicting the commented-out comparison itself and
the spec's description of structural equality; evaluation at equal-valued
literals yields false. -/
theorem C4_literal_equality_stub_eval :
    exprEq (.literal 5) (.literal 5) = some false ∧
    exprEq (.literal 0) (.literal 0) = some false :=
  ⟨rfl, rfl⟩

/-- C5: the claim states that comparing two Scope expressions evaluates
totally to false and never reaches the fatal unreachable branch.  The code
refutes it: the EXPR_SCOPE case of operator== is an empty compound statement
(colt_expr.cpp:82-85) that falls through into the EXPR_FN_CALL/default
branch calling colt_unreachable, although that branch's own comment reserves
it for invalid tags; evaluation at two Scope expressions does not return. -/
theorem C5_scope_equality_unreachable_eval :
    exprEq (.scope []) (.scope []) = none ∧
    exprEq (.scope [0]) (.scope [0]) = none :=
  ⟨rfl, rfl⟩

/-- C6: CreateAST yields an AST exactly when the builder accumulated zero
errors, yields the accumulated error count otherwise, and the warning count
never influences the outcome. -/
theorem C6_createAST_result :
    ∀ s : ASTMakerState,
      ((∃ a, CreateAST s = .ok a) ↔ s.error_count = 0) ∧
      (s.error_count ≠ 0 → CreateAST s = .error s.error_count) ∧
      (∀ w, CreateAST { s with warn_count := w } = CreateAST s) := by
  intro s
  refine ⟨⟨?_, ?_⟩, ?_, ?_⟩
  · rintro ⟨a, ha⟩
    by_cases h : s.error_count = 0
    · exact h
    · simp [CreateAST, Nat.pos_of_ne_zero h] at ha
  · intro h
    exact ⟨{ expressions := s.expressions }, by simp [CreateAST, h]⟩
  · intro h
    simp [CreateAST, Nat.pos_of_ne_zero h]
  · intro w
    simp [CreateAST]

/-- Witness for C6: a builder state with two errors yields the error count. -/
theorem C6_createAST_witness :
    CreateAST { expressions := [], error_count := 2, warn_count := 7 } = .error 2 :=
  (C6_createAST_result _).2.1 (by decide)

/-- C7 counterexample: the claim that every ERROR-channel diagnostic
increments the error count by exactly one fails at the representable u16
state 65535: the source's ++error_count on a u16 wraps the counter to 0,
not to 65536. -/
theorem C7_wrap_counterexample :
    (ASTMaker.generate_any .ERROR
      { expressions := [], error_count := 2 ^ 16 - 1, warn_count := 0 }).error_count = 0 ∧
    (ASTMaker.generate_any .ERROR
      { expressions := [], error_count := 2 ^ 16 - 1, warn_count := 0 }).error_count ≠
      (2 ^ 16 - 1) + 1 ∧
    (ASTMaker.generate_any_current .ERROR
      { expressions := [], error_count := 2 ^ 16 - 1, warn_count := 0 }).error_count = 0 := by
  refine ⟨?_, ?_, ?_⟩ <;> decide

/-- C7 amended: a diagnostic reported through the ERROR channel of
generate_any or generate_any_current sets the builder's u16 error count to
its successor modulo 2 ^ 16 — an increment by exactly one whenever the
counter is below its maximum 65535, wrapping to 0 there — while WARNING and
MESSAGE reports leave the builder state, and in particular the error count,
unchanged. -/
theorem C7_generate_any_error_counting :
    ∀ s : ASTMakerState,
      ((ASTMaker.generate_any .ERROR s).error_count = (s.error_count + 1) % 2 ^ 16 ∧
        (ASTMaker.generate_any_current .ERROR s).error_count = (s.error_count + 1) % 2 ^ 16) ∧
      (s.error_count + 1 < 2 ^ 16 →
        (ASTMaker.generate_any .ERROR s).error_count = s.error_count + 1 ∧
        (ASTMaker.generate_any_current .ERROR s).error_count = s.error_count + 1) ∧
      (ASTMaker.generate_any .WARNING s = s ∧ ASTMaker.generate_any .MESSAGE s = s) ∧
      (ASTMaker.generate_any_current .WARNING s = s ∧
        ASTMaker.generate_any_current .MESSAGE s = s) := by
  intro s
  refine ⟨⟨rfl, rfl⟩, fun h => ⟨?_, ?_⟩, ⟨rfl, rfl⟩, ⟨rfl, rfl⟩⟩
  · simp only [ASTMaker.generate_any]
    omega
  · simp only [ASTMaker.generate_any_current]
    omega

/-- Witness for C7: an error report at count 3 yields count 4. -/
theorem C7_generate_any_witness :
    (ASTMaker.generate_any .ERROR
      { expressions := [], error_count := 3, warn_count := 5 }).error_count = 4 :=
  ((C7_generate_any_error_counting _).2.1 (by norm_num)).1

/-- C8: GetOpPrecedence is total over the token enumeration; the
non-operator tokens, among them the right parenthesis, the comma, the
semicolon and the error token, receive the maximal sentinel precedence 255,
and every token receives a value of at most 255. -/
theorem C8_precedence_total :
    (GetOpPrecedence .rightParen = 255 ∧ GetOpPrecedence .comma = 255 ∧
      GetOpPrecedence .semicolon = 255 ∧ GetOpPrecedence .error = 255) ∧
    (∀ t : Token, t.isBinaryOperatorToken = false → GetOpPrecedence t = 255) ∧
    (∀ t : Token, GetOpPrecedence t ≤ 255) := by
  refine ⟨⟨rfl, rfl, rfl, rfl⟩, ?_, ?_⟩
  · intro t
    cases t <;> decide
  · intro t
    cases t <;> decide

/-- Witness for C8: the comma is not an operator and gets the sentinel. -/
theorem C8_precedence_witness : GetOpPrecedence Token.comma = 255 :=
  C8_precedence_total.2.1 Token.comma (by decide)

/-- C9: for VariableReadExpr and VariableWriteExpr, is_global holds exactly
when the stored local-slot id equals the maximum representable u64 value;
the name-only constructor stores that sentinel, and the constructor taking
an explicit u64 id different from the sentinel (the source's asserted
precondition) yields an expression with is_global false. -/
theorem C9_local_slot_sentinel :
    (∀ n : String, (VariableReadExpr.mkGlobal n).is_global = true ∧
      (VariableReadExpr.mkGlobal n).local_ID = u64Max) ∧
    (∀ (n : String) (id : Nat), id < 2 ^ 64 → id ≠ u64Max →
      (VariableReadExpr.mkLocal n id).is_global = false) ∧
    (∀ e : VariableReadExpr, e.is_global = true ↔ e.local_ID = u64Max) ∧
    (∀ (n : String) (v : Nat), (VariableWriteExpr.mkGlobal n v).is_global = true ∧
      (VariableWriteExpr.mkGlobal n v).local_ID = u64Max) ∧
    (∀ (n : String) (v id : Nat), id < 2 ^ 64 → id ≠ u64Max →
      (VariableWriteExpr.mkLocal n v id).is_global = false) ∧
    (∀ e : VariableWriteExpr, e.is_global = true ↔ e.local_ID = u64Max) := by
  refine ⟨fun n => ⟨?_, rfl⟩, fun n id hlt hne => ?_, fun e => ?_,
    fun n v => ⟨?_, rfl⟩, fun n v id hlt hne => ?_, fun e => ?_⟩
  · simp [VariableReadExpr.mkGlobal, VariableReadExpr.is_global]
  · simp [VariableReadExpr.mkLocal, VariableReadExpr.is_global,
      beq_eq_false_iff_ne, hne]
  · simp [VariableReadExpr.is_global]
  · simp [VariableWriteExpr.mkGlobal, VariableWriteExpr.is_global]
  · simp [VariableWriteExpr.mkLocal, VariableWriteExpr.is_global,
      beq_eq_false_iff_ne, hne]
  · simp [VariableWriteExpr.is_global]

/-- Witness for C9: a local id of 3 is below the u64 bound, differs from the
sentinel, and yields non-global reads and writes. -/
theorem C9_local_slot_witness :
    (VariableReadExpr.mkLocal "x" 3).is_global = false ∧
    (VariableWriteExpr.mkLocal "x" 7 3).is_global = false :=
  ⟨C9_local_slot_sentinel.2.1 "x" 3 (by norm_num) (by norm_num [u64Max]),
   C9_local_slot_sentinel.2.2.2.2.1 "x" 7 3 (by norm_num) (by norm_num [u64Max])⟩

/-- C10: for Unary, Binary, Convert, VariableDecl, VariableWrite, FnReturn
and Condition expressions, operator== compares child subexpressions by
handle (pointer) identity: with equal operators and fields the comparison
returns true exactly when the child handles coincide, never consulting the
nodes the handles designate, so distinct handles to structurally identical
children compare unequal. -/
theorem C10_child_comparison_by_handle :
    (∀ (op op' : UnaryOperator) (c c' : Nat),
      (exprEq (.unary op c) (.unary op' c') = some true ↔ op = op' ∧ c = c') ∧
      (c ≠ c' → exprEq (.unary op c) (.unary op c') = some false)) ∧
    (∀ (op : BinaryOperator) (l l' r r' : Nat),
      (exprEq (.binary l op r) (.binary l' op r') = some true ↔ l = l' ∧ r = r') ∧
      (l ≠ l' → exprEq (.binary l op r) (.binary l' op r') = some false)) ∧
    (∀ c c' : Nat,
      (exprEq (.convert c) (.convert c') = some true ↔ c = c') ∧
      (c ≠ c' → exprEq (.convert c) (.convert c') = some false)) ∧
    (∀ (g : Bool) (i i' : Option Nat) (n : String),
      exprEq (.varDecl g i n) (.varDecl g i' n) = some true ↔ i = i') ∧
    (∀ (id v v' : Nat) (n : String),
      exprEq (.varWrite id v n) (.varWrite id v' n) = some true ↔ v = v') ∧
    (∀ v v' : Option Nat,
      exprEq (.fnReturn v) (.fnReturn v') = some true ↔ v = v') ∧
    (∀ (c c' t t' : Nat) (e e' : Option Nat),
      exprEq (.condition c t e) (.condition c' t' e') = some true ↔
        c = c' ∧ t = t' ∧ e = e') := by
  refine ⟨fun op op' c c' => ⟨?_, fun hne => ?_⟩,
    fun op l l' r r' => ⟨?_, fun hne => ?_⟩,
    fun c c' => ⟨?_, fun hne => ?_⟩,
    fun g i i' n => ?_, fun id v v' n => ?_, fun v v' => ?_,
    fun c c' t t' e e' => ?_⟩
  · simp [exprEq, Bool.and_eq_true, beq_iff_eq]
  · simp [exprEq, beq_eq_false_iff_ne, hne]
  · simp [exprEq, Bool.and_eq_true, beq_iff_eq]
  · simp [exprEq, beq_eq_false_iff_ne, hne]
  · simp [exprEq, beq_iff_eq]
  · simp [exprEq, beq_eq_false_iff_ne, hne]
  · simp [exprEq, Bool.and_eq_true, beq_iff_eq]
  · simp [exprEq, Bool.and_eq_true, beq_iff_eq]
  · simp [exprEq, beq_iff_eq]
  · simp [exprEq, Bool.and_eq_true, beq_iff_eq, and_assoc]

/-- Witness for C10: two Unary expressions with the same operator but
distinct child handles compare unequal, and equal when the handle is the
same. -/
theorem C10_child_handle_witness :
    exprEq (.unary .negate 0) (.unary .negate 1) = some false ∧
    exprEq (.unary .negate 2) (.unary .negate 2) = some true :=
  ⟨(C10_child_comparison_by_handle.1 .negate .negate 0 1).2 (by decide),
   ((C10_child_comparison_by_handle.1 .negate .negate 2 2).1).mpr ⟨rfl, rfl⟩⟩
